import Mathlib

/-!
Shallow embedding of `src/code.py`, the MacOS automation MCP server.

Each exposed operation is modelled as a pure function returning the ordered
trace of backend (pyautogui) calls it issues together with an
`Except Err String` outcome: `Except.ok` carries the returned status string,
`Except.error` the raised Python exception.  Durations, intervals and other
float parameters are modelled as rationals (the code only forwards them or
clamps them with `max`).  Python string built-ins used by the code
(`str.lower`, `int(...)` on strings) are embedded as explicit list-based
functions.  The embedding fixes the configuration in which the `pyautogui`
module is importable (as the repository's test harness does); the
`screencapture` fallback path of `get_screenshot` is embedded separately as
`_capture_screenshot_without_pyautogui`, with its file-system effects as an
explicit event trace.
-/

set_option maxRecDepth 4096

deriving instance DecidableEq for Except

namespace MacosMCP

/-- Python exceptions raised by the adapter: `ValueError` (the spec's
InvalidArgument) and `RuntimeError`. -/
inductive Err where
  | invalidArgument (msg : String)
  | runtimeError (msg : String)
deriving DecidableEq

/-- One call into the pyautogui backend, recorded in the order issued. -/
inductive BackendCall where
  | moveTo (x y : Int) (duration : Option ℚ)
  | mouseDown (button : String)
  | mouseUp (button : String)
  | click (x y : Option Int) (clicks : Int) (interval : ℚ) (button : String) (duration : ℚ)
  | press (key : String)
  | hotkey (keys : List String)
  | write (text : String) (interval : ℚ)
  | screenshot (region : Option (Int × Int × Int × Int))
deriving DecidableEq

/-- Embedding of Python `str.lower()` (character-wise ASCII lowercasing). -/
def pyLower (s : String) : String := String.mk (s.data.map Char.toLower)

/-- Whitespace characters removed by Python `str.strip()`. -/
def pyIsSpace (c : Char) : Bool :=
  c = ' ' ∨ c = '\t' ∨ c = '\n' ∨ c = '\r' ∨ c = '\x0b' ∨ c = '\x0c'

/-- Embedding of Python `str.strip()`: drop whitespace from both ends. -/
def pyStrip (s : String) : String :=
  String.mk (((s.data.dropWhile pyIsSpace).reverse.dropWhile pyIsSpace).reverse)

/-- The numeric value of an ASCII digit character, if it is one. -/
def digitVal (c : Char) : Option Nat :=
  if 48 ≤ c.toNat ∧ c.toNat ≤ 57 then some (c.toNat - 48) else none

/-- Accumulate the decimal value of a digit string. -/
def digitsToNat (acc : Nat) : List Char → Option Nat
  | [] => some acc
  | c :: cs =>
      match digitVal c with
      | some d => digitsToNat (acc * 10 + d) cs
      | none => none

/-- Embedding of Python `int(s)` on a string: an optional sign followed by
decimal digits; anything else raises `ValueError`. -/
def pyParseInt (s : String) : Option Int :=
  match s.data with
  | [] => none
  | '-' :: rest => if rest.isEmpty then none else (digitsToNat 0 rest).map (fun n => -(n : Int))
  | '+' :: rest => if rest.isEmpty then none else (digitsToNat 0 rest).map (fun n => (n : Int))
  | cs => (digitsToNat 0 cs).map (fun n => (n : Int))

/-- A Python value supplied as a region element: an `int` or a `str`
(the code converts each element with `int(value)`). -/
inductive PyVal where
  | int (i : Int)
  | str (s : String)
deriving DecidableEq

/-- Embedding of `int(value)` applied to a region element. -/
def pyInt : PyVal → Except Err Int
  | .int i => .ok i
  | .str s =>
      match pyParseInt s with
      | some i => .ok i
      | none => .error (.invalidArgument ("invalid literal for int() with base 10: " ++ s))

/-- Embedding of `_normalize_button` (src/code.py lines 77-81): lowercase the
input and require one of the three valid names. -/
def _normalize_button (button : String) : Except Err String :=
  let normalized := pyLower button
  if normalized = "left" ∨ normalized = "right" ∨ normalized = "middle" then
    Except.ok normalized
  else
    Except.error (.invalidArgument "Button must be 'left', 'right', or 'middle'.")

/-- RFC 4648 base64 alphabet: the character of a 6-bit group. -/
def sextetToChar (n : Nat) : Char :=
  if n < 26 then Char.ofNat (65 + n)
  else if n < 52 then Char.ofNat (97 + (n - 26))
  else if n < 62 then Char.ofNat (48 + (n - 52))
  else if n = 62 then '+'
  else '/'

/-- Inverse of the base64 alphabet: the 6-bit value of a character. -/
def charToSextet (c : Char) : Option Nat :=
  if 65 ≤ c.toNat ∧ c.toNat ≤ 90 then some (c.toNat - 65)
  else if 97 ≤ c.toNat ∧ c.toNat ≤ 122 then some (c.toNat - 97 + 26)
  else if 48 ≤ c.toNat ∧ c.toNat ≤ 57 then some (c.toNat - 48 + 52)
  else if c = '+' then some 62
  else if c = '/' then some 63
  else none

/-- Embedding of Python `base64.b64encode` on a list of bytes (each `< 256`),
three bytes to four characters with `=` padding. -/
def b64Encode : List Nat → List Char
  | [] => []
  | [a] => [sextetToChar (a / 4), sextetToChar (a % 4 * 16), '=', '=']
  | [a, b] =>
      [sextetToChar (a / 4), sextetToChar (a % 4 * 16 + b / 16),
       sextetToChar (b % 16 * 4), '=']
  | a :: b :: c :: rest =>
      sextetToChar (a / 4) :: sextetToChar (a % 4 * 16 + b / 16) ::
      sextetToChar (b % 16 * 4 + c / 64) :: sextetToChar (c % 64) :: b64Encode rest

/-- The three bytes encoded by four base64 sextets. -/
def decodeQuad (s1 s2 s3 s4 : Nat) : List Nat :=
  [s1 * 4 + s2 / 16, s2 % 16 * 16 + s3 / 4, s3 % 4 * 64 + s4]

/-- Standard base64 decoding, the inverse of `b64Encode`. -/
def b64Decode : List Char → Option (List Nat)
  | [] => some []
  | c1 :: c2 :: c3 :: c4 :: rest =>
      if c3 = '=' then
        if c4 = '=' ∧ rest = [] then
          match charToSextet c1, charToSextet c2 with
          | some s1, some s2 => some [s1 * 4 + s2 / 16]
          | _, _ => none
        else none
      else if c4 = '=' then
        if rest = [] then
          match charToSextet c1, charToSextet c2, charToSextet c3 with
          | some s1, some s2, some s3 =>
              some [s1 * 4 + s2 / 16, s2 % 16 * 16 + s3 / 4]
          | _, _, _ => none
        else none
      else
        match charToSextet c1, charToSextet c2, charToSextet c3, charToSextet c4 with
        | some s1, some s2, some s3, some s4 =>
            (b64Decode rest).map (fun tail => decodeQuad s1 s2 s3 s4 ++ tail)
        | _, _, _, _ => none
  | _ => none

/-- Base64 encoding of a byte payload as a string. -/
def b64EncodeString (bytes : List Nat) : String := String.mk (b64Encode bytes)

/-- Base64 decoding of a string payload. -/
def b64DecodeString (s : String) : Option (List Nat) := b64Decode s.data

/-- The data-URL string `get_screenshot` builds from the raw PNG bytes
(src/code.py lines 121-122). -/
def dataUrl (image_bytes : List Nat) : String :=
  "data:image/png;base64," ++ b64EncodeString image_bytes

/-- Embedding of `get_screenshot` (src/code.py lines 92-122) on the primary
(pyautogui) path.  `shot` is the backend screenshot primitive, giving the raw
PNG bytes produced for a forwarded region. -/
def get_screenshot (shot : Option (Int × Int × Int × Int) → List Nat)
    (region : Option (List PyVal)) : List BackendCall × Except Err String :=
  match region with
  | none => ([.screenshot none], .ok (dataUrl (shot none)))
  | some r =>
      match r with
      | [r0, r1, r2, r3] =>
          match pyInt r0, pyInt r1, pyInt r2, pyInt r3 with
          | .ok x, .ok y, .ok width, .ok height =>
              if width ≤ 0 ∨ height ≤ 0 then
                ([], .error (.invalidArgument "Width and height must be positive values."))
              else
                ([.screenshot (some (x, y, width, height))],
                 .ok (dataUrl (shot (some (x, y, width, height)))))
          | .error e, _, _, _ => ([], .error e)
          | _, .error e, _, _ => ([], .error e)
          | _, _, .error e, _ => ([], .error e)
          | _, _, _, .error e => ([], .error e)
      | _ =>
          ([], .error (.invalidArgument
            "Region must contain exactly four integers: x, y, width, height."))

/-- Embedding of `move_mouse` (src/code.py lines 125-131). -/
def move_mouse (x y : Int) (duration : ℚ) : List BackendCall × Except Err String :=
  ([.moveTo x y (some (max 0 duration))],
   .ok ("Mouse moved to (" ++ toString x ++ ", " ++ toString y ++ ")."))

/-- Embedding of `click` (src/code.py lines 134-158). -/
def click (x y : Option Int) (button : String) (clicks : Int) (interval duration : ℚ) :
    List BackendCall × Except Err String :=
  match _normalize_button button with
  | .error e => ([], .error e)
  | .ok normalized =>
      ([.click x y (max 1 clicks) (max 0 interval) normalized (max 0 duration)],
       .ok ("Clicked " ++ button ++ " button " ++ toString clicks ++ " time(s) at "
            ++ (match x, y with
                | some xv, some yv => "(" ++ toString xv ++ ", " ++ toString yv ++ ")"
                | _, _ => "current position")
            ++ "."))

/-- Embedding of `press_key` (src/code.py lines 161-173).  The `modifiers`
parameter defaults to Python `None`; `if modifiers:` is true exactly for a
non-empty list. -/
def press_key (key : String) (modifiers : Option (List String)) :
    List BackendCall × Except Err String :=
  match modifiers with
  | some (m :: ms) =>
      let sequence := (m :: ms).map pyLower ++ [key]
      ([.hotkey sequence], .ok ("Pressed " ++ String.intercalate " + " sequence ++ "."))
  | _ => ([.press key], .ok ("Pressed " ++ key ++ "."))

/-- Embedding of `type_text` (src/code.py lines 176-184). -/
def type_text (text : String) (interval : ℚ) (press_enter : Bool) :
    List BackendCall × Except Err String :=
  (.write text (max 0 interval) :: (if press_enter then [.press "enter"] else []),
   .ok (if press_enter then "Typed text and pressed Enter successfully."
        else "Typed text successfully."))

/-- Embedding of `drag_and_drop` (src/code.py lines 187-206). -/
def drag_and_drop (start_x start_y end_x end_y : Int) (duration : ℚ) (button : String) :
    List BackendCall × Except Err String :=
  match _normalize_button button with
  | .error e => ([], .error e)
  | .ok normalized_button =>
      ([.moveTo start_x start_y none,
        .mouseDown normalized_button,
        .moveTo end_x end_y (some (max 0 duration)),
        .mouseUp normalized_button],
       .ok ("Dragged from (" ++ toString start_x ++ ", " ++ toString start_y ++ ") to ("
            ++ toString end_x ++ ", " ++ toString end_y ++ ") using the "
            ++ normalized_button ++ " button."))

/-- Outcome of the `subprocess.run` call on the `screencapture` utility. -/
inductive CmdOutcome where
  | success (png : List Nat)
  | calledProcessError (stderr : String)
  | fileNotFound
deriving DecidableEq

/-- File-system effects of the fallback screenshot path, in program order. -/
inductive FSEvent where
  | createTemp
  | runCommand (command : List String)
  | readTemp
  | unlinkTemp
deriving DecidableEq

/-- Whether the temporary file still exists after a sequence of events. -/
def tempSurvives (events : List FSEvent) : Bool :=
  events.foldl
    (fun alive e =>
      match e with
      | .createTemp => true
      | .unlinkTemp => false
      | _ => alive)
    false

/-- The `screencapture` command line built in src/code.py lines 39-49
(the trailing output path is the temporary file's name). -/
def screencaptureCommand (region : Option (Int × Int × Int × Int)) : List String :=
  ["screencapture", "-x"] ++
    (match region with
     | some (x, y, w, h) =>
         ["-R" ++ toString x ++ "," ++ toString y ++ "," ++ toString w ++ "," ++ toString h]
     | none => []) ++ ["<temp-path>"]

/-- Embedding of `_capture_screenshot_without_pyautogui` (src/code.py lines
31-74).  `darwin` is whether `sys.platform == "darwin"`; `outcome` is how the
`subprocess.run` call on `screencapture` behaves.  Returns the file-system
event trace and the result: the temporary file is created, the command runs,
on success the file's bytes are read, and the `finally` block unlinks the
file on every exit path. -/
def _capture_screenshot_without_pyautogui (darwin : Bool)
    (region : Option (Int × Int × Int × Int)) (outcome : CmdOutcome) :
    List FSEvent × Except Err (List Nat) :=
  if darwin = false then
    ([], .error (.runtimeError "pyautogui is required for screenshots on non-macOS platforms."))
  else
    match outcome with
    | .success png =>
        ([.createTemp, .runCommand (screencaptureCommand region), .readTemp, .unlinkTemp],
         .ok png)
    | .fileNotFound =>
        ([.createTemp, .runCommand (screencaptureCommand region), .unlinkTemp],
         .error (.runtimeError
           "The 'screencapture' command is required for screenshots when PyAutoGUI is unavailable."))
    | .calledProcessError stderr =>
        ([.createTemp, .runCommand (screencaptureCommand region), .unlinkTemp],
         .error (.runtimeError
           (if pyStrip stderr = "" then "The 'screencapture' command failed."
            else "The 'screencapture' command failed." ++ " Details: " ++ pyStrip stderr)))

/-! ## Helper lemmas -/

theorem charToSextet_sextetToChar_fin :
    ∀ n : Fin 64, charToSextet (sextetToChar n.1) = some n.1 := by decide

theorem charToSextet_sextetToChar (s : Nat) (h : s < 64) :
    charToSextet (sextetToChar s) = some s :=
  charToSextet_sextetToChar_fin ⟨s, h⟩

theorem sextetToChar_ne_pad_fin : ∀ n : Fin 64, sextetToChar n.1 ≠ '=' := by decide

theorem sextetToChar_ne_pad (s : Nat) (h : s < 64) : sextetToChar s ≠ '=' :=
  sextetToChar_ne_pad_fin ⟨s, h⟩

theorem b64Decode_quad (s1 s2 s3 s4 : Nat) (h1 : s1 < 64) (h2 : s2 < 64)
    (h3 : s3 < 64) (h4 : s4 < 64) (rest : List Char) :
    b64Decode (sextetToChar s1 :: sextetToChar s2 :: sextetToChar s3 ::
        sextetToChar s4 :: rest) =
      (b64Decode rest).map (fun tail => decodeQuad s1 s2 s3 s4 ++ tail) := by
  simp only [b64Decode]
  rw [if_neg (sextetToChar_ne_pad s3 h3), if_neg (sextetToChar_ne_pad s4 h4)]
  rw [charToSextet_sextetToChar s1 h1, charToSextet_sextetToChar s2 h2,
      charToSextet_sextetToChar s3 h3, charToSextet_sextetToChar s4 h4]

theorem b64Decode_b64Encode :
    ∀ (l : List Nat), (∀ b ∈ l, b < 256) → b64Decode (b64Encode l) = some l
  | [], _ => rfl
  | [a], h => by
      have ha : a < 256 := h a (by simp)
      have h1 := charToSextet_sextetToChar (a / 4) (by omega)
      have h2 := charToSextet_sextetToChar (a % 4 * 16) (by omega)
      simp only [b64Encode, b64Decode, h1, h2, and_self, if_true,
                 Option.some.injEq, List.cons.injEq, and_true]
      omega
  | [a, b], h => by
      have ha : a < 256 := h a (by simp)
      have hb : b < 256 := h b (by simp)
      have h1 := charToSextet_sextetToChar (a / 4) (by omega)
      have h2 := charToSextet_sextetToChar (a % 4 * 16 + b / 16) (by omega)
      have h3 := charToSextet_sextetToChar (b % 16 * 4) (by omega)
      have hne := sextetToChar_ne_pad (b % 16 * 4) (by omega)
      simp only [b64Encode, b64Decode, h1, h2, h3, if_neg hne, and_self, if_true,
                 Option.some.injEq, List.cons.injEq, and_true]
      omega
  | a :: b :: c :: rest, h => by
      have ha : a < 256 := h a (by simp)
      have hb : b < 256 := h b (by simp)
      have hc : c < 256 := h c (by simp)
      have ih := b64Decode_b64Encode rest (fun x hx => h x (by simp [hx]))
      simp only [b64Encode]
      rw [b64Decode_quad (a / 4) (a % 4 * 16 + b / 16) (b % 16 * 4 + c / 64) (c % 64)
            (by omega) (by omega) (by omega) (by omega), ih]
      simp only [Option.map_some', decodeQuad, List.cons_append, List.nil_append,
                 Option.some.injEq, List.cons.injEq]
      refine ⟨by omega, by omega, by omega, trivial⟩

theorem b64DecodeString_b64EncodeString (l : List Nat) (h : ∀ b ∈ l, b < 256) :
    b64DecodeString (b64EncodeString l) = some l :=
  b64Decode_b64Encode l h

theorem get_screenshot_shape (shot : Option (Int × Int × Int × Int) → List Nat)
    (region : Option (List PyVal)) :
    (∃ rt, get_screenshot shot region = ([.screenshot rt], .ok (dataUrl (shot rt)))) ∨
    (∃ e, get_screenshot shot region = ([], .error e)) := by
  rcases region with _ | r
  · refine Or.inl ⟨none, ?_⟩
    rfl
  · rcases r with _ | ⟨r0, _ | ⟨r1, _ | ⟨r2, _ | ⟨r3, _ | ⟨r4, tl⟩⟩⟩⟩⟩
    · refine Or.inr ⟨.invalidArgument
        "Region must contain exactly four integers: x, y, width, height.", ?_⟩
      rfl
    · refine Or.inr ⟨.invalidArgument
        "Region must contain exactly four integers: x, y, width, height.", ?_⟩
      rfl
    · refine Or.inr ⟨.invalidArgument
        "Region must contain exactly four integers: x, y, width, height.", ?_⟩
      rfl
    · refine Or.inr ⟨.invalidArgument
        "Region must contain exactly four integers: x, y, width, height.", ?_⟩
      rfl
    · cases h0 : pyInt r0 with
      | error e => exact Or.inr ⟨e, by simp [get_screenshot, h0]⟩
      | ok x =>
        cases h1 : pyInt r1 with
        | error e => exact Or.inr ⟨e, by simp [get_screenshot, h0, h1]⟩
        | ok y =>
          cases h2 : pyInt r2 with
          | error e => exact Or.inr ⟨e, by simp [get_screenshot, h0, h1, h2]⟩
          | ok w =>
            cases h3 : pyInt r3 with
            | error e => exact Or.inr ⟨e, by simp [get_screenshot, h0, h1, h2, h3]⟩
            | ok ht =>
              by_cases hwh : w ≤ 0 ∨ ht ≤ 0
              · exact Or.inr ⟨.invalidArgument "Width and height must be positive values.",
                  by simp [get_screenshot, h0, h1, h2, h3, if_pos hwh]⟩
              · exact Or.inl ⟨some (x, y, w, ht),
                  by simp [get_screenshot, h0, h1, h2, h3, if_neg hwh]⟩
    · refine Or.inr ⟨.invalidArgument
        "Region must contain exactly four integers: x, y, width, height.", ?_⟩
      rfl

/-! ## Claim theorems -/

/-- C1: for every start point, end point, duration and valid button,
`drag_and_drop` issues exactly move-to start (no duration), button-down with
the normalized button, move-to end with duration `max 0 duration`, button-up
with the normalized button, in that order, and returns the
"Dragged from (sx, sy) to (ex, ey) using the nb button." message. -/
theorem drag_and_drop_sequence (start_x start_y end_x end_y : Int) (duration : ℚ)
    (button nb : String) (h : _normalize_button button = .ok nb) :
    drag_and_drop start_x start_y end_x end_y duration button =
      ([.moveTo start_x start_y none, .mouseDown nb,
        .moveTo end_x end_y (some (max 0 duration)), .mouseUp nb],
       .ok ("Dragged from (" ++ toString start_x ++ ", " ++ toString start_y ++ ") to ("
            ++ toString end_x ++ ", " ++ toString end_y ++ ") using the "
            ++ nb ++ " button.")) := by
  simp only [drag_and_drop, h]

/-- Witness for C1 at the spec example `drag_and_drop(0,1,100,200,-1.0,"Middle")`. -/
theorem drag_and_drop_sequence_witness :
    drag_and_drop 0 1 100 200 (-1) "Middle" =
      ([.moveTo 0 1 none, .mouseDown "middle", .moveTo 100 200 (some 0), .mouseUp "middle"],
       .ok "Dragged from (0, 1) to (100, 200) using the middle button.") :=
  (drag_and_drop_sequence 0 1 100 200 (-1) "Middle" "middle" (by decide)).trans (by decide)

/-- C3: button normalization maps "left", "Left", "RIGHT", "Middle" to
"left", "left", "right", "middle", and every string whose lowercase form is
not one of the three valid names fails with the InvalidArgument message
"Button must be 'left', 'right', or 'middle'.". -/
theorem normalize_button_spec :
    (_normalize_button "left" = .ok "left" ∧ _normalize_button "Left" = .ok "left" ∧
     _normalize_button "RIGHT" = .ok "right" ∧ _normalize_button "Middle" = .ok "middle") ∧
    (∀ button : String,
      pyLower button ≠ "left" → pyLower button ≠ "right" → pyLower button ≠ "middle" →
      _normalize_button button =
        .error (.invalidArgument "Button must be 'left', 'right', or 'middle'.")) := by
  refine ⟨⟨by decide, by decide, by decide, by decide⟩, ?_⟩
  intro button h1 h2 h3
  simp only [_normalize_button]
  rw [if_neg]
  rintro (h | h | h)
  · exact h1 h
  · exact h2 h
  · exact h3 h

/-- Witness for C3 at the invalid input "primary". -/
theorem normalize_button_spec_witness :
    _normalize_button "primary" =
      .error (.invalidArgument "Button must be 'left', 'right', or 'middle'.") :=
  normalize_button_spec.2 "primary" (by decide) (by decide) (by decide)

/-- C6: with a non-empty modifier list, `press_key` issues exactly one chorded
key press with the lowercased modifiers followed by the original-case key and
returns "Pressed m1 + ... + mn + key."; with no modifiers it issues a single
key press and returns "Pressed key.". -/
theorem press_key_spec (key m : String) (ms : List String) :
    press_key key (some (m :: ms)) =
      ([.hotkey ((m :: ms).map pyLower ++ [key])],
       .ok ("Pressed " ++ String.intercalate " + " ((m :: ms).map pyLower ++ [key]) ++ ".")) ∧
    press_key key none =
      ([.press key], .ok ("Pressed " ++ key ++ ".")) :=
  ⟨rfl, rfl⟩

/-- C10: `press_key` with an empty (but present) modifier list behaves exactly
like `press_key` with no modifiers: a single key press and "Pressed key.". -/
theorem press_key_empty_modifiers (key : String) :
    press_key key (some []) = press_key key none ∧
    press_key key (some []) = ([.press key], .ok ("Pressed " ++ key ++ ".")) :=
  ⟨rfl, rfl⟩

/-- C7: for every valid button, `click` passes the normalized lowercase name
to the backend while the returned message echoes the caller original casing,
and the location is "(x, y)" exactly when both coordinates are supplied and
"current position" otherwise. -/
theorem click_message (x y : Option Int) (button nb : String) (clicks : Int)
    (interval duration : ℚ) (h : _normalize_button button = .ok nb) :
    click x y button clicks interval duration =
      ([.click x y (max 1 clicks) (max 0 interval) nb (max 0 duration)],
       .ok ("Clicked " ++ button ++ " button " ++ toString clicks ++ " time(s) at "
            ++ (match x, y with
                | some xv, some yv => "(" ++ toString xv ++ ", " ++ toString yv ++ ")"
                | _, _ => "current position")
            ++ ".")) := by
  simp only [click, h]

/-- Witness for C7 at `click(10, 20, "RIGHT", 2, 1, 2)`. -/
theorem click_message_witness :
    click (some 10) (some 20) "RIGHT" 2 1 2 =
      ([.click (some 10) (some 20) 2 1 "right" 2],
       .ok "Clicked RIGHT button 2 time(s) at (10, 20).") :=
  (click_message (some 10) (some 20) "RIGHT" "right" 2 1 2 (by decide)).trans (by decide)

/-- C8: on the fallback screenshot path (on macOS), the temporary file does
not survive the call on any exit path: success, non-zero exit of the capture
command, or missing binary. -/
theorem capture_fallback_cleanup (region : Option (Int × Int × Int × Int))
    (outcome : CmdOutcome) :
    tempSurvives (_capture_screenshot_without_pyautogui true region outcome).1 = false := by
  cases outcome <;> rfl

/-- C5: negative durations and intervals are forwarded to the backend as
exactly 0, non-negative ones unchanged, across `move_mouse`, `click`,
`type_text` and `drag_and_drop`; for `click` each of interval and duration is
clamped independently of the other parameter's sign; `click` forwards
`max 1 clicks`, so `clicks = 0` forwards 1 and `clicks = 5` forwards 5. -/
theorem clamping_spec :
    (∀ (x y : Int) (d : ℚ), d < 0 → (move_mouse x y d).1 = [.moveTo x y (some 0)]) ∧
    (∀ (x y : Int) (d : ℚ), 0 ≤ d → (move_mouse x y d).1 = [.moveTo x y (some d)]) ∧
    (∀ (x y : Option Int) (button nb : String) (clicks : Int) (interval duration : ℚ),
      _normalize_button button = .ok nb → interval < 0 → duration < 0 →
      (click x y button clicks interval duration).1 =
        [.click x y (max 1 clicks) 0 nb 0]) ∧
    (∀ (x y : Option Int) (button nb : String) (clicks : Int) (interval duration : ℚ),
      _normalize_button button = .ok nb → 0 ≤ interval → 0 ≤ duration →
      (click x y button clicks interval duration).1 =
        [.click x y (max 1 clicks) interval nb duration]) ∧
    (∀ (x y : Option Int) (button nb : String) (clicks : Int) (interval duration : ℚ),
      _normalize_button button = .ok nb → interval < 0 →
      (click x y button clicks interval duration).1 =
        [.click x y (max 1 clicks) 0 nb (max 0 duration)]) ∧
    (∀ (x y : Option Int) (button nb : String) (clicks : Int) (interval duration : ℚ),
      _normalize_button button = .ok nb → 0 ≤ interval →
      (click x y button clicks interval duration).1 =
        [.click x y (max 1 clicks) interval nb (max 0 duration)]) ∧
    (∀ (x y : Option Int) (button nb : String) (clicks : Int) (interval duration : ℚ),
      _normalize_button button = .ok nb → duration < 0 →
      (click x y button clicks interval duration).1 =
        [.click x y (max 1 clicks) (max 0 interval) nb 0]) ∧
    (∀ (x y : Option Int) (button nb : String) (clicks : Int) (interval duration : ℚ),
      _normalize_button button = .ok nb → 0 ≤ duration →
      (click x y button clicks interval duration).1 =
        [.click x y (max 1 clicks) (max 0 interval) nb duration]) ∧
    (∀ (text : String) (interval : ℚ) (press_enter : Bool), interval < 0 →
      (type_text text interval press_enter).1 =
        .write text 0 :: (if press_enter then [.press "enter"] else [])) ∧
    (∀ (text : String) (interval : ℚ) (press_enter : Bool), 0 ≤ interval →
      (type_text text interval press_enter).1 =
        .write text interval :: (if press_enter then [.press "enter"] else [])) ∧
    (∀ (sx sy ex ey : Int) (d : ℚ) (button nb : String),
      _normalize_button button = .ok nb → d < 0 →
      (drag_and_drop sx sy ex ey d button).1 =
        [.moveTo sx sy none, .mouseDown nb, .moveTo ex ey (some 0), .mouseUp nb]) ∧
    (∀ (sx sy ex ey : Int) (d : ℚ) (button nb : String),
      _normalize_button button = .ok nb → 0 ≤ d →
      (drag_and_drop sx sy ex ey d button).1 =
        [.moveTo sx sy none, .mouseDown nb, .moveTo ex ey (some d), .mouseUp nb]) ∧
    (∀ (x y : Option Int) (clicks : Int),
      (click x y "left" clicks 0 0).1 = [.click x y (max 1 clicks) 0 "left" 0]) ∧
    (click none none "left" 0 0 0).1 = [.click none none 1 0 "left" 0] ∧
    (click none none "left" 5 0 0).1 = [.click none none 5 0 "left" 0] := by
  refine ⟨?_, ?_, ?_, ?_, ?_, ?_, ?_, ?_, ?_, ?_, ?_, ?_, ?_, ?_, ?_⟩
  · intro x y d hd
    simp only [move_mouse, max_eq_left hd.le]
  · intro x y d hd
    simp only [move_mouse, max_eq_right hd]
  · intro x y button nb clicks interval duration hn hi hd
    simp only [click, hn, max_eq_left hi.le, max_eq_left hd.le]
  · intro x y button nb clicks interval duration hn hi hd
    simp only [click, hn, max_eq_right hi, max_eq_right hd]
  · intro x y button nb clicks interval duration hn hi
    simp only [click, hn, max_eq_left hi.le]
  · intro x y button nb clicks interval duration hn hi
    simp only [click, hn, max_eq_right hi]
  · intro x y button nb clicks interval duration hn hd
    simp only [click, hn, max_eq_left hd.le]
  · intro x y button nb clicks interval duration hn hd
    simp only [click, hn, max_eq_right hd]
  · intro text interval pe hi
    simp only [type_text, max_eq_left hi.le]
  · intro text interval pe hi
    simp only [type_text, max_eq_right hi]
  · intro sx sy ex ey d button nb hn hd
    simp only [drag_and_drop, hn, max_eq_left hd.le]
  · intro sx sy ex ey d button nb hn hd
    simp only [drag_and_drop, hn, max_eq_right hd]
  · intro x y clicks
    have hn : _normalize_button "left" = .ok "left" := by decide
    simp only [click, hn, max_self]
  · decide
  · decide

/-- Witness for C5 at the concrete inputs of the spec examples, including the
mixed-sign click cases (negative interval with positive duration and the
other way round). -/
theorem clamping_spec_witness :
    (move_mouse 100 200 (-5)).1 = [.moveTo 100 200 (some 0)] ∧
    (move_mouse 100 200 3).1 = [.moveTo 100 200 (some 3)] ∧
    (click none none "left" 0 (-2) (-3)).1 = [.click none none 1 0 "left" 0] ∧
    (click none none "left" 1 (-2) 1).1 = [.click none none 1 0 "left" 1] ∧
    (click none none "left" 1 1 (-2)).1 = [.click none none 1 1 "left" 0] ∧
    (type_text "Hello" (-1) false).1 = [.write "Hello" 0] ∧
    (drag_and_drop 0 1 100 200 (-1) "Middle").1 =
      [.moveTo 0 1 none, .mouseDown "middle", .moveTo 100 200 (some 0), .mouseUp "middle"] :=
  ⟨clamping_spec.1 100 200 (-5) (by norm_num),
   clamping_spec.2.1 100 200 3 (by norm_num),
   (clamping_spec.2.2.1 none none "left" "left" 0 (-2) (-3)
      (by decide) (by norm_num) (by norm_num)).trans (by decide),
   (clamping_spec.2.2.2.2.1 none none "left" "left" 1 (-2) 1
      (by decide) (by norm_num)).trans (by decide),
   (clamping_spec.2.2.2.2.2.2.1 none none "left" "left" 1 1 (-2)
      (by decide) (by norm_num)).trans (by decide),
   (clamping_spec.2.2.2.2.2.2.2.2.1 "Hello" (-1) false (by norm_num)).trans (by decide),
   clamping_spec.2.2.2.2.2.2.2.2.2.2.1 0 1 100 200 (-1) "Middle" "middle"
      (by decide) (by norm_num)⟩

/-- C9: whenever `click`, `drag_and_drop` or `get_screenshot` ends in an
error (invalid button name or malformed region), it issues no backend call at
all: the backend-call trace of the error path is empty. -/
theorem invalid_argument_atomicity :
    (∀ (x y : Option Int) (button : String) (clicks : Int) (interval duration : ℚ) (e : Err),
      (click x y button clicks interval duration).2 = .error e →
      (click x y button clicks interval duration).1 = []) ∧
    (∀ (sx sy ex ey : Int) (d : ℚ) (button : String) (e : Err),
      (drag_and_drop sx sy ex ey d button).2 = .error e →
      (drag_and_drop sx sy ex ey d button).1 = []) ∧
    (∀ (shot : Option (Int × Int × Int × Int) → List Nat)
       (region : Option (List PyVal)) (e : Err),
      (get_screenshot shot region).2 = .error e →
      (get_screenshot shot region).1 = []) := by
  refine ⟨?_, ?_, ?_⟩
  · intro x y button clicks interval duration e hErr
    cases hn : _normalize_button button with
    | error e2 => simp [click, hn]
    | ok nb => simp [click, hn] at hErr
  · intro sx sy ex ey d button e hErr
    cases hn : _normalize_button button with
    | error e2 => simp [drag_and_drop, hn]
    | ok nb => simp [drag_and_drop, hn] at hErr
  · intro shot region e hErr
    rcases get_screenshot_shape shot region with ⟨rt, hr⟩ | ⟨e2, hr⟩
    · rw [hr] at hErr
      simp at hErr
    · simp [hr]

/-- Witness for C9 at an invalid button and a malformed region. -/
theorem invalid_argument_atomicity_witness :
    (click none none "invalid" 1 0 0).1 = [] ∧
    (drag_and_drop 0 0 1 1 0 "bad").1 = [] ∧
    (get_screenshot (fun _ => []) (some [.int 1, .int 2, .int 3])).1 = [] :=
  ⟨invalid_argument_atomicity.1 none none "invalid" 1 0 0
      (.invalidArgument "Button must be 'left', 'right', or 'middle'.") (by decide),
   invalid_argument_atomicity.2.1 0 0 1 1 0 "bad"
      (.invalidArgument "Button must be 'left', 'right', or 'middle'.") (by decide),
   invalid_argument_atomicity.2.2 (fun _ => []) (some [.int 1, .int 2, .int 3])
      (.invalidArgument "Region must contain exactly four integers: x, y, width, height.")
      (by decide)⟩

/-- C4: `get_screenshot` rejects every region whose length is not 4 with the
exact InvalidArgument message, rejects every 4-element region with
non-positive width or height, and for every 4-element region of integers or
numeric strings with positive dimensions converts the elements to integers
and forwards the 4-tuple to the backend. -/
theorem get_screenshot_region_validation :
    (∀ (shot : Option (Int × Int × Int × Int) → List Nat) (r : List PyVal),
      r.length ≠ 4 →
      get_screenshot shot (some r) =
        ([], .error (.invalidArgument
          "Region must contain exactly four integers: x, y, width, height."))) ∧
    (∀ (shot : Option (Int × Int × Int × Int) → List Nat) (r0 r1 r2 r3 : PyVal)
       (x y w ht : Int),
      pyInt r0 = .ok x → pyInt r1 = .ok y → pyInt r2 = .ok w → pyInt r3 = .ok ht →
      (w ≤ 0 ∨ ht ≤ 0) →
      get_screenshot shot (some [r0, r1, r2, r3]) =
        ([], .error (.invalidArgument "Width and height must be positive values."))) ∧
    (∀ (shot : Option (Int × Int × Int × Int) → List Nat) (r0 r1 r2 r3 : PyVal)
       (x y w ht : Int),
      pyInt r0 = .ok x → pyInt r1 = .ok y → pyInt r2 = .ok w → pyInt r3 = .ok ht →
      0 < w → 0 < ht →
      get_screenshot shot (some [r0, r1, r2, r3]) =
        ([.screenshot (some (x, y, w, ht))],
         .ok (dataUrl (shot (some (x, y, w, ht)))))) := by
  refine ⟨?_, ?_, ?_⟩
  · intro shot r hlen
    rcases r with _ | ⟨a, _ | ⟨b, _ | ⟨c, _ | ⟨d, _ | ⟨e, tl⟩⟩⟩⟩⟩
    · rfl
    · rfl
    · rfl
    · rfl
    · exact absurd rfl hlen
    · rfl
  · intro shot r0 r1 r2 r3 x y w ht h0 h1 h2 h3 hwh
    simp only [get_screenshot, h0, h1, h2, h3, if_pos hwh]
  · intro shot r0 r1 r2 r3 x y w ht h0 h1 h2 h3 hw hh
    simp only [get_screenshot, h0, h1, h2, h3]
    rw [if_neg (by omega)]

/-- Witness for C4 at the spec examples: a 3-element region, the empty
region, and a numeric-string region. -/
theorem get_screenshot_region_validation_witness :
    get_screenshot (fun _ => [1]) (some [.int 1, .int 2, .int 3]) =
      ([], .error (.invalidArgument
        "Region must contain exactly four integers: x, y, width, height.")) ∧
    get_screenshot (fun _ => [1]) (some []) =
      ([], .error (.invalidArgument
        "Region must contain exactly four integers: x, y, width, height.")) ∧
    get_screenshot (fun _ => [1]) (some [.str "10", .str "20", .str "300", .str "400"]) =
      ([.screenshot (some (10, 20, 300, 400))], .ok "data:image/png;base64,AQ==") :=
  ⟨get_screenshot_region_validation.1 (fun _ => [1]) [.int 1, .int 2, .int 3] (by decide),
   get_screenshot_region_validation.1 (fun _ => [1]) [] (by decide),
   (get_screenshot_region_validation.2.2 (fun _ => [1])
      (.str "10") (.str "20") (.str "300") (.str "400") 10 20 300 400
      (by decide) (by decide) (by decide) (by decide) (by decide) (by decide)).trans
     (by decide)⟩

/-- C2: whenever `get_screenshot` succeeds, its result is the data-URL prefix
"data:image/png;base64," followed by a base64 payload that decodes back to
exactly the byte payload the backend screenshot primitive returned for the
forwarded region (round-trip law). -/
theorem get_screenshot_roundtrip (shot : Option (Int × Int × Int × Int) → List Nat)
    (region : Option (List PyVal)) (s : String)
    (hbytes : ∀ rt, ∀ b ∈ shot rt, b < 256)
    (hok : (get_screenshot shot region).2 = .ok s) :
    ∃ rt payload,
      (get_screenshot shot region).1 = [.screenshot rt] ∧
      s = "data:image/png;base64," ++ payload ∧
      b64DecodeString payload = some (shot rt) := by
  rcases get_screenshot_shape shot region with ⟨rt, hr⟩ | ⟨e, hr⟩
  · rw [hr] at hok ⊢
    have hs : dataUrl (shot rt) = s := Except.ok.inj hok
    subst hs
    exact ⟨rt, b64EncodeString (shot rt), rfl, rfl,
      b64DecodeString_b64EncodeString (shot rt) (hbytes rt)⟩
  · rw [hr] at hok
    exact absurd hok (by simp)

/-- Witness for C2 with a backend returning the four PNG magic bytes. -/
theorem get_screenshot_roundtrip_witness :
    ∃ rt payload,
      (get_screenshot (fun _ => [137, 80, 78, 71]) none).1 = [.screenshot rt] ∧
      "data:image/png;base64,iVBORw==" = "data:image/png;base64," ++ payload ∧
      b64DecodeString payload =
        some ((fun _ => [137, 80, 78, 71] :
                 Option (Int × Int × Int × Int) → List Nat) rt) :=
  get_screenshot_roundtrip (fun _ => [137, 80, 78, 71]) none
    "data:image/png;base64,iVBORw=="
    (fun rt b hb => by simp at hb; omega) (by decide)

end MacosMCP
